import Mathlib

/-!
Verification of the FYND review-pipeline core against its specification.

The definitions below are a shallow embedding of
`src/Task_2/Fynd/app/api/review/route.ts` and `lib/types.ts`:
JavaScript numbers that hold epoch-millisecond times are modelled as `Int`,
JSON numbers (form rating, sentiment score) as `ℚ`, the in-memory
`rateLimitStore : Map<string, number[]>` as a total function with default
`[]`, and the external effects of one request (the AI call, `JSON.parse`,
the database `push`) as explicit parameters describing their outcome.
-/

namespace Fynd

/-- `RATE_LIMIT_WINDOW_MS = 60_000` from route.ts. -/
def RATE_LIMIT_WINDOW_MS : Int := 60000

/-- `RATE_LIMIT_MAX = 5` from route.ts. -/
def RATE_LIMIT_MAX : Nat := 5

/-- The `rateLimitStore : Map<string, number[]>`, modelled as a total map
with the `?? []` default folded in. -/
def Store : Type := String → List Int

/-- The store at process start: `new Map()` (every lookup falls to `?? []`). -/
def emptyStore : Store := fun _ => []

/-- `rateLimitStore.set(ip, v)`. -/
def Store.set (s : Store) (ip : String) (v : List Int) : Store :=
  fun k => if k = ip then v else s k

@[simp] theorem Store.set_self (s : Store) (ip : String) (v : List Int) :
    Store.set s ip v ip = v := by
  simp [Store.set]

@[simp] theorem Store.set_other (s : Store) (ip k : String) (v : List Int)
    (h : k ≠ ip) : Store.set s ip v k = s k := by
  simp [Store.set, h]

/-- `Math.ceil(x / 1000)` for an integer number of milliseconds
(`/` on `Int` is floor division, so `-(-x / 1000)` is the ceiling). -/
def ceilDiv1000 (x : Int) : Int := -(-x / 1000)

/-- Result record of `isRateLimited`. -/
structure RLResult where
  limited : Bool
  retryAfterSec : Int
deriving DecidableEq, Repr

/-- `isRateLimited(ip)` from route.ts, with `Date.now()` passed in as `now`
and the mutation of `rateLimitStore` returned as the second component. -/
def isRateLimited (s : Store) (ip : String) (now : Int) : RLResult × Store :=
  let history := s ip
  let fresh := history.filter (fun t => decide (now - t < RATE_LIMIT_WINDOW_MS))
  if RATE_LIMIT_MAX ≤ fresh.length then
    let oldest := fresh.head?.getD now
    let retryAfterMs := max 0 (RATE_LIMIT_WINDOW_MS - (now - oldest))
    ({ limited := true, retryAfterSec := ceilDiv1000 retryAfterMs }, s)
  else
    ({ limited := false, retryAfterSec := 0 }, Store.set s ip (fresh ++ [now]))

/-- Sequential admission calls of a single client, collecting the results. -/
def runCalls (s : Store) (ip : String) : List Int → List RLResult × Store
  | [] => ([], s)
  | t :: ts =>
      let p := isRateLimited s ip t
      let q := runCalls p.2 ip ts
      (p.1 :: q.1, q.2)

/-- The store reached from process start by an arbitrary interleaving of
admission calls from arbitrary clients. -/
def runAll (calls : List (String × Int)) : Store :=
  calls.foldl (fun s c => (isRateLimited s c.1 c.2).2) emptyStore

theorem filter_window_all {now : Int} {l : List Int}
    (h : ∀ t ∈ l, now - t < RATE_LIMIT_WINDOW_MS) :
    l.filter (fun t => decide (now - t < RATE_LIMIT_WINDOW_MS)) = l :=
  List.filter_eq_self.mpr fun t ht => decide_eq_true (h t ht)

theorem filter_window_none {now : Int} {l : List Int}
    (h : ∀ t ∈ l, ¬ (now - t < RATE_LIMIT_WINDOW_MS)) :
    l.filter (fun t => decide (now - t < RATE_LIMIT_WINDOW_MS)) = [] := by
  rw [List.filter_eq_nil_iff]
  exact fun t ht => by simpa using h t ht

theorem admit_allowed (s : Store) (ip : String) (now : Int)
    (h : (((s ip).filter (fun t => decide (now - t < RATE_LIMIT_WINDOW_MS))).length <
      RATE_LIMIT_MAX)) :
    isRateLimited s ip now =
      ({ limited := false, retryAfterSec := 0 },
       Store.set s ip
         (((s ip).filter (fun t => decide (now - t < RATE_LIMIT_WINDOW_MS))) ++ [now])) := by
  simp only [isRateLimited]
  rw [if_neg (by omega)]

theorem admit_denied (s : Store) (ip : String) (now : Int)
    (h : RATE_LIMIT_MAX ≤
      (((s ip).filter (fun t => decide (now - t < RATE_LIMIT_WINDOW_MS))).length)) :
    isRateLimited s ip now =
      ({ limited := true,
         retryAfterSec := ceilDiv1000 (max 0 (RATE_LIMIT_WINDOW_MS - (now -
           (((s ip).filter (fun t => decide (now - t < RATE_LIMIT_WINDOW_MS))).head?.getD
             now)))) }, s) := by
  simp only [isRateLimited]
  rw [if_pos h]

theorem admit_allowed_eq (s : Store) (ip : String) (now : Int) (l : List Int)
    (hl : s ip = l) (hfresh : ∀ t ∈ l, now - t < RATE_LIMIT_WINDOW_MS)
    (hlen : l.length < RATE_LIMIT_MAX) :
    isRateLimited s ip now =
      ({ limited := false, retryAfterSec := 0 }, Store.set s ip (l ++ [now])) := by
  have hf : (s ip).filter (fun t => decide (now - t < RATE_LIMIT_WINDOW_MS)) = l := by
    rw [hl]; exact filter_window_all hfresh
  rw [admit_allowed _ _ _ (by rw [hf]; exact hlen), hf]

theorem admit_denied_eq (s : Store) (ip : String) (now : Int) (l : List Int)
    (hl : s ip = l) (hfresh : ∀ t ∈ l, now - t < RATE_LIMIT_WINDOW_MS)
    (hlen : RATE_LIMIT_MAX ≤ l.length) :
    isRateLimited s ip now =
      ({ limited := true,
         retryAfterSec :=
           ceilDiv1000 (max 0 (RATE_LIMIT_WINDOW_MS - (now - l.head?.getD now))) }, s) := by
  have hf : (s ip).filter (fun t => decide (now - t < RATE_LIMIT_WINDOW_MS)) = l := by
    rw [hl]; exact filter_window_all hfresh
  rw [admit_denied _ _ _ (by rw [hf]; exact hlen), hf]

theorem admit_stale_eq (s : Store) (ip : String) (now : Int) (l : List Int)
    (hl : s ip = l) (hstale : ∀ t ∈ l, ¬ (now - t < RATE_LIMIT_WINDOW_MS)) :
    isRateLimited s ip now =
      ({ limited := false, retryAfterSec := 0 }, Store.set s ip [now]) := by
  have hf : (s ip).filter (fun t => decide (now - t < RATE_LIMIT_WINDOW_MS)) = [] := by
    rw [hl]; exact filter_window_none hstale
  rw [admit_allowed _ _ _ (by rw [hf]; simp [RATE_LIMIT_MAX]), hf]
  rfl

theorem ceilDiv1000_pos {x : Int} (h : 0 < x) : 0 < ceilDiv1000 x := by
  unfold ceilDiv1000
  omega

theorem ceilDiv1000_max_comm (x : Int) :
    ceilDiv1000 (max 0 x) = max 0 (ceilDiv1000 x) := by
  rcases le_total x 0 with h | h
  · rw [max_eq_left h]
    have h1 : ceilDiv1000 x ≤ 0 := by unfold ceilDiv1000; omega
    rw [max_eq_left h1]
    decide
  · rw [max_eq_right h]
    have h1 : 0 ≤ ceilDiv1000 x := by unfold ceilDiv1000; omega
    rw [max_eq_right h1]

theorem step_preserves_bound (s : Store) (hs : ∀ k, (s k).length ≤ RATE_LIMIT_MAX)
    (ip : String) (now : Int) :
    ∀ k, (((isRateLimited s ip now).2) k).length ≤ RATE_LIMIT_MAX := by
  intro k
  rcases le_or_lt RATE_LIMIT_MAX
      (((s ip).filter (fun t => decide (now - t < RATE_LIMIT_WINDOW_MS))).length) with h | h
  · rw [admit_denied s ip now h]
    exact hs k
  · rw [admit_allowed s ip now h]
    dsimp only
    by_cases hk : k = ip
    · subst hk
      rw [Store.set_self, List.length_append]
      simp only [List.length_singleton]
      omega
    · rw [Store.set_other _ _ _ _ hk]
      exact hs k

theorem fold_preserves_bound (calls : List (String × Int)) :
    ∀ (s : Store), (∀ k, (s k).length ≤ RATE_LIMIT_MAX) →
    ∀ k, ((calls.foldl (fun s c => (isRateLimited s c.1 c.2).2) s) k).length ≤
      RATE_LIMIT_MAX := by
  induction calls with
  | nil => intro s hs k; simpa using hs k
  | cons c rest ih =>
      intro s hs k
      exact ih _ (step_preserves_bound s hs c.1 c.2) k

/-- C9: after any sequence of admission calls starting from the empty store, every
client's stored timestamp list has length at most 5, and the pruned view of that
list at any instant `now` contains only timestamps within the 60,000 ms window. -/
theorem c9_window_invariant (calls : List (String × Int)) (ip : String) (now t : Int) :
    ((runAll calls) ip).length ≤ RATE_LIMIT_MAX ∧
    (t ∈ ((runAll calls) ip).filter (fun u => decide (now - u < RATE_LIMIT_WINDOW_MS)) →
      now - t < RATE_LIMIT_WINDOW_MS) := by
  constructor
  · exact fold_preserves_bound calls emptyStore (fun k => by simp [emptyStore]) ip
  · intro ht
    have h := List.of_mem_filter ht
    simpa using h

theorem c9_window_invariant_witness :
    ((runAll [("1.2.3.4", 0)]) "1.2.3.4").length ≤ RATE_LIMIT_MAX ∧
    ((1 : Int) - 0 < RATE_LIMIT_WINDOW_MS) :=
  ⟨(c9_window_invariant [("1.2.3.4", 0)] "1.2.3.4" 1 0).1,
   (c9_window_invariant [("1.2.3.4", 0)] "1.2.3.4" 1 0).2 (by decide)⟩

/-- C10: a denied admission call leaves the rate-limit store entirely unchanged, and
an admission call for one client never modifies the stored entry of another client. -/
theorem c10_frame (s : Store) (ip k : String) (now : Int) :
    ((isRateLimited s ip now).1.limited = true → (isRateLimited s ip now).2 k = s k) ∧
    (k ≠ ip → (isRateLimited s ip now).2 k = s k) := by
  rcases le_or_lt RATE_LIMIT_MAX
      (((s ip).filter (fun u => decide (now - u < RATE_LIMIT_WINDOW_MS))).length) with h | h
  · rw [admit_denied s ip now h]
    exact ⟨fun _ => rfl, fun _ => rfl⟩
  · rw [admit_allowed s ip now h]
    refine ⟨fun hl => ?_, fun hk => ?_⟩
    · simp at hl
    · exact Store.set_other _ _ _ _ hk

/-- C1: for a fixed client starting from the empty store, the 1st–5th admission
attempts inside one 60,000 ms window are allowed, the 6th and 7th attempts inside
that window are denied with `retryAfterSec > 0`, and an attempt made once the
window has fully elapsed since every recorded timestamp — including exactly at the
boundary `now - oldest = windowMs`, which counts as stale — is allowed again. -/
theorem c1_sliding_window (ip : String) (t1 t2 t3 t4 t5 t6 t7 t8 : Int)
    (h12 : t1 ≤ t2) (h23 : t2 ≤ t3) (h34 : t3 ≤ t4) (h45 : t4 ≤ t5)
    (h56 : t5 ≤ t6) (h67 : t6 ≤ t7) (hwin : t7 - t1 < RATE_LIMIT_WINDOW_MS)
    (helapsed : t5 + RATE_LIMIT_WINDOW_MS ≤ t8) :
    ((runCalls emptyStore ip [t1, t2, t3, t4, t5, t6, t7, t8]).1.map RLResult.limited =
      [false, false, false, false, false, true, true, false]) ∧
    (∀ r ∈ (runCalls emptyStore ip [t1, t2, t3, t4, t5, t6, t7, t8]).1,
      r.limited = true → 0 < r.retryAfterSec) := by
  have hpos : ∀ u : Int, 0 < u → 0 < ceilDiv1000 (max 0 u) := by
    intro u hu
    rw [max_eq_right hu.le]
    exact ceilDiv1000_pos hu
  set s1 := Store.set emptyStore ip [t1] with hs1
  set s2 := Store.set s1 ip [t1, t2] with hs2
  set s3 := Store.set s2 ip [t1, t2, t3] with hs3
  set s4 := Store.set s3 ip [t1, t2, t3, t4] with hs4
  set s5 := Store.set s4 ip [t1, t2, t3, t4, t5] with hs5
  set s8 := Store.set s5 ip [t8] with hs8
  have e1 : isRateLimited emptyStore ip t1 = ({ limited := false, retryAfterSec := 0 }, s1) :=
    admit_allowed_eq _ _ _ [] rfl (by simp) (by decide)
  have e2 : isRateLimited s1 ip t2 = ({ limited := false, retryAfterSec := 0 }, s2) :=
    admit_allowed_eq _ _ _ [t1] (Store.set_self _ _ _)
      (by intro t ht; simp at ht; subst ht; omega) (by simp [RATE_LIMIT_MAX])
  have e3 : isRateLimited s2 ip t3 = ({ limited := false, retryAfterSec := 0 }, s3) :=
    admit_allowed_eq _ _ _ [t1, t2] (Store.set_self _ _ _)
      (by intro t ht; simp at ht; rcases ht with rfl | rfl <;> omega) (by simp [RATE_LIMIT_MAX])
  have e4 : isRateLimited s3 ip t4 = ({ limited := false, retryAfterSec := 0 }, s4) :=
    admit_allowed_eq _ _ _ [t1, t2, t3] (Store.set_self _ _ _)
      (by intro t ht; simp at ht; rcases ht with rfl | rfl | rfl <;> omega) (by simp [RATE_LIMIT_MAX])
  have e5 : isRateLimited s4 ip t5 = ({ limited := false, retryAfterSec := 0 }, s5) :=
    admit_allowed_eq _ _ _ [t1, t2, t3, t4] (Store.set_self _ _ _)
      (by intro t ht; simp at ht; rcases ht with rfl | rfl | rfl | rfl <;> omega) (by simp [RATE_LIMIT_MAX])
  have e6 : isRateLimited s5 ip t6 =
      ({ limited := true,
         retryAfterSec := ceilDiv1000 (max 0 (RATE_LIMIT_WINDOW_MS - (t6 - t1))) }, s5) :=
    admit_denied_eq _ _ _ [t1, t2, t3, t4, t5] (Store.set_self _ _ _)
      (by intro t ht; simp at ht; rcases ht with rfl | rfl | rfl | rfl | rfl <;> omega)
      (by simp [RATE_LIMIT_MAX])
  have e7 : isRateLimited s5 ip t7 =
      ({ limited := true,
         retryAfterSec := ceilDiv1000 (max 0 (RATE_LIMIT_WINDOW_MS - (t7 - t1))) }, s5) :=
    admit_denied_eq _ _ _ [t1, t2, t3, t4, t5] (Store.set_self _ _ _)
      (by intro t ht; simp at ht; rcases ht with rfl | rfl | rfl | rfl | rfl <;> omega)
      (by simp [RATE_LIMIT_MAX])
  have e8 : isRateLimited s5 ip t8 = ({ limited := false, retryAfterSec := 0 }, s8) :=
    admit_stale_eq _ _ _ [t1, t2, t3, t4, t5] (Store.set_self _ _ _)
      (by intro t ht; simp at ht; rcases ht with rfl | rfl | rfl | rfl | rfl <;> omega)
  have hrun : (runCalls emptyStore ip [t1, t2, t3, t4, t5, t6, t7, t8]).1 =
      [{ limited := false, retryAfterSec := 0 }, { limited := false, retryAfterSec := 0 },
       { limited := false, retryAfterSec := 0 }, { limited := false, retryAfterSec := 0 },
       { limited := false, retryAfterSec := 0 },
       { limited := true,
         retryAfterSec := ceilDiv1000 (max 0 (RATE_LIMIT_WINDOW_MS - (t6 - t1))) },
       { limited := true,
         retryAfterSec := ceilDiv1000 (max 0 (RATE_LIMIT_WINDOW_MS - (t7 - t1))) },
       { limited := false, retryAfterSec := 0 }] := by
    simp only [runCalls, e1, e2, e3, e4, e5, e6, e7, e8]
  rw [hrun]
  constructor
  · simp
  · intro r hr hlim
    simp only [List.mem_cons, List.not_mem_nil, or_false] at hr
    rcases hr with rfl | rfl | rfl | rfl | rfl | rfl | rfl | rfl
    · simp at hlim
    · simp at hlim
    · simp at hlim
    · simp at hlim
    · simp at hlim
    · exact hpos _ (by omega)
    · exact hpos _ (by omega)
    · simp at hlim

theorem c1_sliding_window_witness :
    (runCalls emptyStore "1.2.3.4" [0, 0, 0, 0, 0, 1, 2, 60000]).1.map RLResult.limited =
      [false, false, false, false, false, true, true, false] :=
  (c1_sliding_window "1.2.3.4" 0 0 0 0 0 1 2 60000 (by decide) (by decide) (by decide)
    (by decide) (by decide) (by decide) (by decide) (by decide)).1

/-- A store holding five timestamps for client "1.2.3.4", used to witness denial. -/
def storeFive : Store := Store.set emptyStore "1.2.3.4" [0, 0, 0, 0, 0]

theorem c10_frame_witness :
    ((isRateLimited storeFive "1.2.3.4" 1).2 "1.2.3.4" = storeFive "1.2.3.4") ∧
    ((isRateLimited storeFive "1.2.3.4" 1).2 "5.6.7.8" = storeFive "5.6.7.8") :=
  ⟨(c10_frame storeFive "1.2.3.4" "1.2.3.4" 1).1 (by decide),
   (c10_frame storeFive "1.2.3.4" "5.6.7.8" 1).2 (by decide)⟩

/-! ## Input validation: `ReviewFormSchema` from lib/types.ts -/

/-- The request body `{rating, review}` after `request.json()`, with the JSON
number `rating` modelled as `ℚ`. -/
structure RawReview where
  rating : ℚ
  review : String
deriving DecidableEq, Repr

/-- `ReviewFormSchema.safeParse`, returning the flattened list of field error
messages (`z.number().min(1).max(5)` on `rating`, `z.string().min(5).max(1000)`
on `review`); the empty list means success. -/
def validateReview (r : RawReview) : List String :=
  (if r.rating < 1 then ["Rating must be at least 1"] else []) ++
  (if 5 < r.rating then ["Rating must be at most 5"] else []) ++
  (if r.review.length < 5 then ["Review must be at least 5 characters"] else []) ++
  (if 1000 < r.review.length then ["Review must be at most 1000 characters"] else [])

/-! ## AI response validation: `AIResponseSchema` from lib/types.ts -/

/-- `AllowedTagSchema`: the fixed tag vocabulary. -/
def allowedTags : List String := ["Quality", "Price", "Service", "Delivery", "App Experience"]

/-- A successfully `JSON.parse`d AI reply, before schema validation.
`tags := none` models the property being absent from the JSON object. -/
structure AIJson where
  response : String
  summary : String
  action : String
  sentiment_score : ℚ
  tags : Option (List String)
deriving DecidableEq, Repr

/-- The result of `AIResponseSchema.safeParse` on success: `tags` has been
defaulted to `[]` when absent. -/
structure AIParsed where
  response : String
  summary : String
  action : String
  sentiment_score : ℚ
  tags : List String
deriving DecidableEq, Repr

/-- `AIResponseSchema.safeParse`: `response`/`summary`/`action` are non-empty
strings (`z.string().min(1)`), `sentiment_score` is a number in [0,100]
(`z.number().min(0).max(100)`), and `tags` is an array over the fixed vocabulary
(`z.array(AllowedTagSchema).default([])`) — note the zod schema places no upper
bound on the number of tags. -/
def aiSafeParse (j : AIJson) : Option AIParsed :=
  if 1 ≤ j.response.length ∧ 1 ≤ j.summary.length ∧ 1 ≤ j.action.length ∧
      0 ≤ j.sentiment_score ∧ j.sentiment_score ≤ 100 ∧
      (j.tags.getD []).all (fun t => allowedTags.contains t) = true then
    some { response := j.response, summary := j.summary, action := j.action,
           sentiment_score := j.sentiment_score, tags := j.tags.getD [] }
  else
    none

/-- `Math.round` on a JSON number: round half up, `⌊q + 1/2⌋`. -/
def jsRound (q : ℚ) : Int := ⌊q + 1 / 2⌋

/-! ## The submit-review `POST` handler from route.ts -/

/-- The persisted `ReviewDocument` shape from lib/types.ts. -/
structure ReviewDocument where
  rating : ℚ
  reviewText : String
  ai_response : String
  ai_summary : String
  ai_action : String
  ai_sentiment : Int
  ai_tags : List String
  latency_ms : Nat
  createdAt : Int
deriving DecidableEq, Repr

/-- A thrown JavaScript `Error`, reduced to its `message` and `stack` strings. -/
structure JsError where
  msg : String
  stk : String
deriving DecidableEq, Repr

/-- The observable outcome of `client.models.generateContent` followed by the
manual `JSON.parse` of `response.text`: the call threw, the text was falsy
(absent or empty), `JSON.parse` threw on the returned text, or it parsed. -/
inductive AIReply
  | empty
  | unparseable (raw : String)
  | parsed (raw : String) (j : AIJson)
deriving DecidableEq, Repr

inductive AICallResult
  | threw (e : JsError)
  | returned (r : AIReply)
deriving DecidableEq, Repr

/-- The JSON body and headers of a `NextResponse.json` reply, one optional field
per body key the handler ever writes. -/
structure RouteResponse where
  status : Nat
  retryAfterHeader : Option String := none
  success : Option Bool := none
  error : Option String := none
  retryAfterSec : Option Int := none
  fieldMessages : Option (List String) := none
  details : Option String := none
  stack : Option String := none
  message : Option String := none
deriving DecidableEq, Repr

/-- The `catch` branch of the handler: `500` with the thrown error's message and
stack in the body. -/
def internalErrorResp (e : JsError) : RouteResponse :=
  { status := 500, success := some false, error := some "Internal server error",
    details := some e.msg, stack := some e.stk }

/-- The `if (!aiJson)` branch: `500` after empty or unparseable AI text. -/
def parseFailedResp : RouteResponse :=
  { status := 500, success := some false, error := some "AI response parsing failed",
    details := some "No parsed content or valid text returned" }

/-- The `!parsedAi.success` branch: `500` after a schema violation. -/
def badStructureResp : RouteResponse :=
  { status := 500, success := some false, error := some "Invalid AI response structure" }

/-- Everything observable about one run of the submit-review `POST` handler. -/
structure PostOutcome where
  resp : RouteResponse
  store : Store
  db : List ReviewDocument
  aiCalled : Bool

/-- The submit-review `POST` handler. `store`/`db` are the states of the
rate-limit map and of the `reviews` collection on entry; `ip` is `getClientIp`'s
result; `now` is `Date.now()` at the rate-limit check; `body` the parsed request
body; `ai` the outcome of the AI call and of `JSON.parse` on its text;
`latencyMs` the measured latency; `pushErr` whether `reviewsRef.push` threw; and
`createdAt` is `Date.now()` at persistence time. -/
def postSubmit (store : Store) (db : List ReviewDocument) (ip : String) (now : Int)
    (body : RawReview) (ai : AICallResult) (latencyMs : Nat)
    (pushErr : Option JsError) (createdAt : Int) : PostOutcome :=
  let rl := (isRateLimited store ip now).1
  let store1 := (isRateLimited store ip now).2
  if rl.limited then
    { resp := { status := 429, retryAfterHeader := some (toString rl.retryAfterSec),
                success := some false,
                error := some "Rate limit exceeded. Please try again shortly.",
                retryAfterSec := some rl.retryAfterSec },
      store := store1, db := db, aiCalled := false }
  else
    let errs := validateReview body
    if errs = [] then
      match ai with
      | .threw e =>
          { resp := internalErrorResp e, store := store1, db := db, aiCalled := true }
      | .returned .empty =>
          { resp := parseFailedResp, store := store1, db := db, aiCalled := true }
      | .returned (.unparseable _) =>
          { resp := parseFailedResp, store := store1, db := db, aiCalled := true }
      | .returned (.parsed _ j) =>
          match aiSafeParse j with
          | none =>
              { resp := badStructureResp, store := store1, db := db, aiCalled := true }
          | some a =>
              match pushErr with
              | some e =>
                  { resp := internalErrorResp e, store := store1, db := db, aiCalled := true }
              | none =>
                  let doc : ReviewDocument :=
                    { rating := body.rating, reviewText := body.review,
                      ai_response := a.response, ai_summary := a.summary,
                      ai_action := a.action, ai_sentiment := jsRound a.sentiment_score,
                      ai_tags := a.tags, latency_ms := latencyMs, createdAt := createdAt }
                  { resp := { status := 200, success := some true, message := some a.response },
                    store := store1, db := db ++ [doc], aiCalled := true }
    else
      { resp := { status := 400, success := some false, error := some "Invalid input",
                  fieldMessages := some errs },
        store := store1, db := db, aiCalled := false }

/-- Reduction of the handler once the rate limit passed and validation succeeded:
the outcome is determined by the AI call result, the schema check, and the push. -/
theorem postSubmit_run (store : Store) (db : List ReviewDocument) (ip : String)
    (now : Int) (body : RawReview)
    (hlim : (isRateLimited store ip now).1.limited = false)
    (hval : validateReview body = [])
    (ai : AICallResult) (lat : Nat) (pushErr : Option JsError) (cAt : Int) :
    postSubmit store db ip now body ai lat pushErr cAt =
      match ai with
      | .threw e =>
          { resp := internalErrorResp e, store := (isRateLimited store ip now).2,
            db := db, aiCalled := true }
      | .returned .empty =>
          { resp := parseFailedResp, store := (isRateLimited store ip now).2,
            db := db, aiCalled := true }
      | .returned (.unparseable _) =>
          { resp := parseFailedResp, store := (isRateLimited store ip now).2,
            db := db, aiCalled := true }
      | .returned (.parsed _ j) =>
          match aiSafeParse j with
          | none =>
              { resp := badStructureResp, store := (isRateLimited store ip now).2,
                db := db, aiCalled := true }
          | some a =>
              match pushErr with
              | some e =>
                  { resp := internalErrorResp e, store := (isRateLimited store ip now).2,
                    db := db, aiCalled := true }
              | none =>
                  { resp := { status := 200, success := some true,
                              message := some a.response },
                    store := (isRateLimited store ip now).2,
                    db := db ++ [{ rating := body.rating, reviewText := body.review,
                                   ai_response := a.response, ai_summary := a.summary,
                                   ai_action := a.action,
                                   ai_sentiment := jsRound a.sentiment_score,
                                   ai_tags := a.tags, latency_ms := lat,
                                   createdAt := cAt }],
                    aiCalled := true } := by
  simp only [postSubmit, hlim, hval]
  rw [if_neg (by simp), if_pos trivial]

/-- C2: whenever admission is denied (the pruned per-client count is ≥ 5), the
response has status 429, its `retryAfterSec` body field and its `Retry-After`
header both equal `ceil((windowMs - (now - oldestRemaining)) / 1000)` clamped to
be ≥ 0, the denied attempt is not recorded in any client's window, and nothing is
persisted. -/
theorem c2_denied_response (store : Store) (db : List ReviewDocument) (ip k : String)
    (now : Int) (body : RawReview) (ai : AICallResult) (lat : Nat)
    (pushErr : Option JsError) (cAt : Int)
    (h : RATE_LIMIT_MAX ≤
      (((store ip).filter (fun t => decide (now - t < RATE_LIMIT_WINDOW_MS))).length)) :
    (postSubmit store db ip now body ai lat pushErr cAt).resp.status = 429 ∧
    (postSubmit store db ip now body ai lat pushErr cAt).resp.retryAfterSec =
      some (max 0 (ceilDiv1000 (RATE_LIMIT_WINDOW_MS - (now -
        (((store ip).filter
          (fun t => decide (now - t < RATE_LIMIT_WINDOW_MS))).head?.getD now))))) ∧
    (postSubmit store db ip now body ai lat pushErr cAt).resp.retryAfterHeader =
      some (toString (max 0 (ceilDiv1000 (RATE_LIMIT_WINDOW_MS - (now -
        (((store ip).filter
          (fun t => decide (now - t < RATE_LIMIT_WINDOW_MS))).head?.getD now)))))) ∧
    (postSubmit store db ip now body ai lat pushErr cAt).store k = store k ∧
    (postSubmit store db ip now body ai lat pushErr cAt).db = db := by
  have e := admit_denied store ip now h
  refine ⟨?_, ?_, ?_, ?_, ?_⟩ <;>
    simp [postSubmit, e, ceilDiv1000_max_comm]

theorem c2_denied_response_witness :
    (postSubmit storeFive [] "1.2.3.4" 1 { rating := 5, review := "Great service!" }
      (.returned .empty) 0 none 0).resp.status = 429 ∧
    (postSubmit storeFive [] "1.2.3.4" 1 { rating := 5, review := "Great service!" }
      (.returned .empty) 0 none 0).db = [] :=
  ⟨(c2_denied_response storeFive [] "1.2.3.4" "5.6.7.8" 1
      { rating := 5, review := "Great service!" } (.returned .empty) 0 none 0
      (by decide)).1,
   (c2_denied_response storeFive [] "1.2.3.4" "5.6.7.8" 1
      { rating := 5, review := "Great service!" } (.returned .empty) 0 none 0
      (by decide)).2.2.2.2⟩

theorem ite_singleton_eq_nil {c : Prop} [Decidable c] {x : String} :
    ((if c then [x] else []) = []) ↔ ¬ c := by
  split_ifs with h <;> simp [h]

/-- C3 (amended): validation accepts exactly when the rating is a number in [1,5]
(the zod schema does not require integrality) and the review length is in
[5,1000], all bounds inclusive; every violated field contributes its message to
the error list; and when validation fails on a non-rate-limited request, the
handler answers 400 with all messages and makes no AI call. -/
theorem c3_validation (r : RawReview) (store : Store) (db : List ReviewDocument)
    (ip : String) (now : Int) (ai : AICallResult) (lat : Nat)
    (pushErr : Option JsError) (cAt : Int) :
    (validateReview r = [] ↔
      (1 ≤ r.rating ∧ r.rating ≤ 5 ∧ 5 ≤ r.review.length ∧ r.review.length ≤ 1000)) ∧
    (r.rating < 1 → "Rating must be at least 1" ∈ validateReview r) ∧
    (5 < r.rating → "Rating must be at most 5" ∈ validateReview r) ∧
    (r.review.length < 5 → "Review must be at least 5 characters" ∈ validateReview r) ∧
    (1000 < r.review.length → "Review must be at most 1000 characters" ∈ validateReview r) ∧
    ((isRateLimited store ip now).1.limited = false → validateReview r ≠ [] →
      (postSubmit store db ip now r ai lat pushErr cAt).aiCalled = false ∧
      (postSubmit store db ip now r ai lat pushErr cAt).resp.status = 400 ∧
      (postSubmit store db ip now r ai lat pushErr cAt).resp.fieldMessages =
        some (validateReview r)) := by
  refine ⟨?_, ?_, ?_, ?_, ?_, ?_⟩
  · unfold validateReview
    simp only [List.append_eq_nil, ite_singleton_eq_nil, not_lt]
    tauto
  · intro h; simp [validateReview, h]
  · intro h; simp [validateReview, h]
  · intro h; simp [validateReview, h]
  · intro h; simp [validateReview, h]
  · intro hlim hne
    simp only [postSubmit, hlim]
    rw [if_neg (by simp), if_neg hne]
    exact ⟨rfl, rfl, rfl⟩

theorem c3_validation_witness :
    ("Rating must be at least 1" ∈ validateReview { rating := 0, review := "hi" }) ∧
    ("Review must be at least 5 characters" ∈
      validateReview { rating := 0, review := "hi" }) ∧
    (postSubmit emptyStore [] "1.2.3.4" 0 { rating := 0, review := "hi" }
      (.returned .empty) 0 none 0).aiCalled = false :=
  ⟨(c3_validation { rating := 0, review := "hi" } emptyStore [] "1.2.3.4" 0
      (.returned .empty) 0 none 0).2.1 (by decide),
   (c3_validation { rating := 0, review := "hi" } emptyStore [] "1.2.3.4" 0
      (.returned .empty) 0 none 0).2.2.2.1 (by decide),
   ((c3_validation { rating := 0, review := "hi" } emptyStore [] "1.2.3.4" 0
      (.returned .empty) 0 none 0).2.2.2.2.2 (by decide) (by decide)).1⟩

/-- C3 counterexample: the zod `ReviewFormSchema` does not require `rating` to be
an integer, so the non-integer rating 3/2 with a 5-character review is accepted,
refuting the claimed "accepted if and only if rating is an integer in [1,5]". -/
theorem c3_counterexample :
    validateReview { rating := (3 : ℚ) / 2, review := "hello" } = [] ∧
    ¬ ∃ n : ℤ, ((3 : ℚ) / 2) = (n : ℚ) := by
  constructor
  · have hlen : ("hello".length : ℕ) = 5 := rfl
    unfold validateReview
    rw [hlen]
    norm_num
  · rintro ⟨n, hn⟩
    have h2 : (3 : ℚ) = 2 * (n : ℚ) := by linarith
    have h3 : (3 : ℤ) = 2 * n := by exact_mod_cast h2
    omega

/-- A fixed otherwise-valid parsed AI reply, parameterised by its `tags` value. -/
def sampleAIJson (tags : Option (List String)) : AIJson :=
  { response := "Thanks!", summary := "ok", action := "noted",
    sentiment_score := 50, tags := tags }

/-- C4: evaluating the response validator at the claim's inputs: a 4-element tags
array drawn from the vocabulary passes `AIResponseSchema` (the zod schema has no
`maxItems 3` bound, unlike the structured-output descriptor route.ts documents it
as matching), while an element outside the vocabulary is rejected, and absent
tags default to an empty sequence, which is what gets persisted. -/
theorem c4_tags_eval :
    ((aiSafeParse
        (sampleAIJson (some ["Quality", "Price", "Service", "Delivery"]))).isSome = true) ∧
    (aiSafeParse (sampleAIJson (some ["Quality", "Banana"])) = none) ∧
    ((aiSafeParse (sampleAIJson none)).map AIParsed.tags = some []) ∧
    ((postSubmit emptyStore [] "1.2.3.4" 0 { rating := 5, review := "Great service!" }
        (.returned (.parsed "raw" (sampleAIJson none))) 7 none
        99).db.map ReviewDocument.ai_tags = [[]]) := by
  refine ⟨by decide, by decide, by decide, by decide⟩

theorem postSubmit_threw (store : Store) (db : List ReviewDocument) (ip : String)
    (now : Int) (body : RawReview)
    (hlim : (isRateLimited store ip now).1.limited = false)
    (hval : validateReview body = [])
    (e : JsError) (lat : Nat) (pushErr : Option JsError) (cAt : Int) :
    postSubmit store db ip now body (.threw e) lat pushErr cAt =
      { resp := internalErrorResp e, store := (isRateLimited store ip now).2,
        db := db, aiCalled := true } := by
  rw [postSubmit_run store db ip now body hlim hval]

theorem postSubmit_empty (store : Store) (db : List ReviewDocument) (ip : String)
    (now : Int) (body : RawReview)
    (hlim : (isRateLimited store ip now).1.limited = false)
    (hval : validateReview body = [])
    (lat : Nat) (pushErr : Option JsError) (cAt : Int) :
    postSubmit store db ip now body (.returned .empty) lat pushErr cAt =
      { resp := parseFailedResp, store := (isRateLimited store ip now).2,
        db := db, aiCalled := true } := by
  rw [postSubmit_run store db ip now body hlim hval]

theorem postSubmit_unparseable (store : Store) (db : List ReviewDocument) (ip : String)
    (now : Int) (body : RawReview)
    (hlim : (isRateLimited store ip now).1.limited = false)
    (hval : validateReview body = [])
    (raw : String) (lat : Nat) (pushErr : Option JsError) (cAt : Int) :
    postSubmit store db ip now body (.returned (.unparseable raw)) lat pushErr cAt =
      { resp := parseFailedResp, store := (isRateLimited store ip now).2,
        db := db, aiCalled := true } := by
  rw [postSubmit_run store db ip now body hlim hval]

theorem postSubmit_parsed (store : Store) (db : List ReviewDocument) (ip : String)
    (now : Int) (body : RawReview)
    (hlim : (isRateLimited store ip now).1.limited = false)
    (hval : validateReview body = [])
    (raw : String) (j : AIJson) (lat : Nat) (pushErr : Option JsError) (cAt : Int) :
    postSubmit store db ip now body (.returned (.parsed raw j)) lat pushErr cAt =
      match aiSafeParse j with
      | none =>
          { resp := badStructureResp, store := (isRateLimited store ip now).2,
            db := db, aiCalled := true }
      | some a =>
          match pushErr with
          | some e =>
              { resp := internalErrorResp e, store := (isRateLimited store ip now).2,
                db := db, aiCalled := true }
          | none =>
              { resp := { status := 200, success := some true,
                          message := some a.response },
                store := (isRateLimited store ip now).2,
                db := db ++ [{ rating := body.rating, reviewText := body.review,
                               ai_response := a.response, ai_summary := a.summary,
                               ai_action := a.action,
                               ai_sentiment := jsRound a.sentiment_score,
                               ai_tags := a.tags, latency_ms := lat,
                               createdAt := cAt }],
                aiCalled := true } := by
  rw [postSubmit_run store db ip now body hlim hval]

/-- C5: with the other fields valid, a `sentiment_score` passes response
validation exactly when it lies in [0,100]; an accepted score is persisted as
`ai_sentiment = jsRound score` (round to nearest, half up); an out-of-range score
is a schema error, the request ends with status 500, and nothing is persisted. -/
theorem c5_sentiment (j : AIJson) (store : Store) (db : List ReviewDocument)
    (ip : String) (now : Int) (body : RawReview) (lat : Nat) (cAt : Int) (raw : String)
    (hresp : 1 ≤ j.response.length) (hsum : 1 ≤ j.summary.length)
    (hact : 1 ≤ j.action.length)
    (htags : (j.tags.getD []).all (fun t => allowedTags.contains t) = true) :
    ((aiSafeParse j).isSome ↔ (0 ≤ j.sentiment_score ∧ j.sentiment_score ≤ 100)) ∧
    (0 ≤ j.sentiment_score → j.sentiment_score ≤ 100 →
      (isRateLimited store ip now).1.limited = false → validateReview body = [] →
      (postSubmit store db ip now body (.returned (.parsed raw j)) lat none cAt).db =
        db ++ [{ rating := body.rating, reviewText := body.review,
                 ai_response := j.response, ai_summary := j.summary,
                 ai_action := j.action, ai_sentiment := jsRound j.sentiment_score,
                 ai_tags := j.tags.getD [], latency_ms := lat, createdAt := cAt }]) ∧
    (¬ (0 ≤ j.sentiment_score ∧ j.sentiment_score ≤ 100) →
      aiSafeParse j = none ∧
      ((isRateLimited store ip now).1.limited = false → validateReview body = [] →
        (postSubmit store db ip now body
          (.returned (.parsed raw j)) lat none cAt).resp.status = 500 ∧
        (postSubmit store db ip now body
          (.returned (.parsed raw j)) lat none cAt).db = db)) := by
  have hparse : ∀ _ : 0 ≤ j.sentiment_score, ∀ _ : j.sentiment_score ≤ 100,
      aiSafeParse j =
        some { response := j.response, summary := j.summary, action := j.action,
               sentiment_score := j.sentiment_score, tags := j.tags.getD [] } := by
    intro hs0 hs1
    unfold aiSafeParse
    rw [if_pos ⟨hresp, hsum, hact, hs0, hs1, htags⟩]
  have hnone : ¬ (0 ≤ j.sentiment_score ∧ j.sentiment_score ≤ 100) →
      aiSafeParse j = none := by
    intro hn
    unfold aiSafeParse
    rw [if_neg (by tauto)]
  refine ⟨?_, ?_, ?_⟩
  · constructor
    · intro hs
      by_contra hn
      rw [hnone hn] at hs
      simp at hs
    · rintro ⟨hs0, hs1⟩
      rw [hparse hs0 hs1]
      rfl
  · intro hs0 hs1 hlim hval
    rw [postSubmit_parsed store db ip now body hlim hval raw j lat none cAt,
        hparse hs0 hs1]
  · intro hn
    refine ⟨hnone hn, fun hlim hval => ?_⟩
    rw [postSubmit_parsed store db ip now body hlim hval raw j lat none cAt,
        hnone hn]
    exact ⟨rfl, rfl⟩

/-- The concrete AI reply of the claim's example: sentiment score 91.6. -/
def aiJson916 : AIJson :=
  { response := "Thanks!", summary := "Happy customer", action := "None needed",
    sentiment_score := (91.6 : ℚ), tags := some ["Service"] }

theorem c5_sentiment_witness :
    (postSubmit emptyStore [] "1.2.3.4" 0
        { rating := 5, review := "Great service, very happy!" }
        (.returned (.parsed "raw" aiJson916)) 3 none 42).db =
      [] ++ [{ rating := 5, reviewText := "Great service, very happy!",
               ai_response := "Thanks!", ai_summary := "Happy customer",
               ai_action := "None needed", ai_sentiment := jsRound (91.6 : ℚ),
               ai_tags := ["Service"], latency_ms := 3, createdAt := 42 }] ∧
    jsRound (91.6 : ℚ) = 92 := by
  constructor
  · exact (c5_sentiment aiJson916 emptyStore [] "1.2.3.4" 0
      { rating := 5, review := "Great service, very happy!" } 3 42 "raw"
      (by decide) (by decide) (by decide) (by decide)).2.1
      (by norm_num [aiJson916]) (by norm_num [aiJson916]) (by decide) (by decide)
  · norm_num [jsRound]

/-- C6 (amended): an AI call that returns no text at all and one whose text fails
to parse are not distinguished by the handler — both fall into the same
`if (!aiJson)` branch and produce the identical 500 "AI response parsing failed"
response — and in either case nothing is persisted. -/
theorem c6_empty_vs_malformed (store : Store) (db : List ReviewDocument) (ip : String)
    (now : Int) (body : RawReview) (lat : Nat) (pushErr : Option JsError) (cAt : Int)
    (raw : String)
    (hlim : (isRateLimited store ip now).1.limited = false)
    (hval : validateReview body = []) :
    ((postSubmit store db ip now body (.returned .empty) lat pushErr cAt).resp =
      parseFailedResp) ∧
    ((postSubmit store db ip now body (.returned (.unparseable raw)) lat pushErr cAt).resp =
      parseFailedResp) ∧
    parseFailedResp.status = 500 ∧
    ((postSubmit store db ip now body (.returned .empty) lat pushErr cAt).db = db) ∧
    ((postSubmit store db ip now body (.returned (.unparseable raw)) lat pushErr cAt).db =
      db) := by
  rw [postSubmit_empty store db ip now body hlim hval lat pushErr cAt,
      postSubmit_unparseable store db ip now body hlim hval raw lat pushErr cAt]
  exact ⟨rfl, rfl, rfl, rfl, rfl⟩

theorem c6_empty_vs_malformed_witness :
    ((postSubmit emptyStore [] "1.2.3.4" 0 { rating := 5, review := "Great service!" }
        (.returned .empty) 0 none 0).resp = parseFailedResp) ∧
    ((postSubmit emptyStore [] "1.2.3.4" 0 { rating := 5, review := "Great service!" }
        (.returned (.unparseable "not json")) 0 none 0).resp = parseFailedResp) :=
  ⟨(c6_empty_vs_malformed emptyStore [] "1.2.3.4" 0
      { rating := 5, review := "Great service!" } 0 none 0 "not json"
      (by decide) (by decide)).1,
   (c6_empty_vs_malformed emptyStore [] "1.2.3.4" 0
      { rating := 5, review := "Great service!" } 0 none 0 "not json"
      (by decide) (by decide)).2.1⟩

/-- C6 counterexample: empty AI output and a malformed, unparseable AI output
produce the very same observable outcome — the same 500 response body and no
persisted record — so empty output is not a distinct failure outcome from a
malformed one. -/
theorem c6_counterexample :
    ((postSubmit emptyStore [] "1.2.3.4" 0 { rating := 5, review := "Great service!" }
        (.returned .empty) 0 none 0).resp =
      (postSubmit emptyStore [] "1.2.3.4" 0 { rating := 5, review := "Great service!" }
        (.returned (.unparseable "this is not json")) 0 none 0).resp) ∧
    ((postSubmit emptyStore [] "1.2.3.4" 0 { rating := 5, review := "Great service!" }
        (.returned .empty) 0 none 0).db =
      (postSubmit emptyStore [] "1.2.3.4" 0 { rating := 5, review := "Great service!" }
        (.returned (.unparseable "this is not json")) 0 none 0).db) := by
  exact ⟨by decide, by decide⟩

/-- C7 (amended): AI parse failures and schema failures are reported with fixed
generic strings that are independent of the raw AI text, but a thrown exception —
an AI-call failure or a storage failure — is returned to the user with the
exception's message and stack in the 500 response body. -/
theorem c7_failure_detail (store : Store) (db : List ReviewDocument) (ip : String)
    (now : Int) (body : RawReview) (lat : Nat) (cAt : Int) (raw raw2 : String)
    (j : AIJson) (e : JsError)
    (hlim : (isRateLimited store ip now).1.limited = false)
    (hval : validateReview body = []) :
    ((postSubmit store db ip now body (.returned (.unparseable raw)) lat none cAt).resp =
      (postSubmit store db ip now body (.returned (.unparseable raw2)) lat none cAt).resp) ∧
    ((postSubmit store db ip now body (.returned (.unparseable raw)) lat none cAt).resp =
      parseFailedResp) ∧
    (aiSafeParse j = none →
      (postSubmit store db ip now body (.returned (.parsed raw j)) lat none cAt).resp =
        badStructureResp) ∧
    ((postSubmit store db ip now body (.threw e) lat none cAt).resp =
      internalErrorResp e) ∧
    ((aiSafeParse j).isSome = true →
      (postSubmit store db ip now body (.returned (.parsed raw j)) lat (some e) cAt).resp =
        internalErrorResp e) := by
  rw [postSubmit_unparseable store db ip now body hlim hval raw lat none cAt,
      postSubmit_unparseable store db ip now body hlim hval raw2 lat none cAt,
      postSubmit_threw store db ip now body hlim hval e lat none cAt,
      postSubmit_parsed store db ip now body hlim hval raw j lat none cAt,
      postSubmit_parsed store db ip now body hlim hval raw j lat (some e) cAt]
  refine ⟨rfl, rfl, fun hj => ?_, rfl, fun hj => ?_⟩
  · rw [hj]
  · rcases hh : aiSafeParse j with _ | a
    · rw [hh] at hj
      simp at hj
    · rfl

theorem c7_failure_detail_witness :
    ((postSubmit emptyStore [] "1.2.3.4" 0 { rating := 5, review := "Great service!" }
        (.returned (.unparseable "oops")) 0 none 0).resp = parseFailedResp) ∧
    ((postSubmit emptyStore [] "1.2.3.4" 0 { rating := 5, review := "Great service!" }
        (.threw { msg := "boom", stk := "trace" }) 0 none 0).resp =
      internalErrorResp { msg := "boom", stk := "trace" }) :=
  ⟨(c7_failure_detail emptyStore [] "1.2.3.4" 0
      { rating := 5, review := "Great service!" } 0 0 "oops" "other"
      (sampleAIJson none) { msg := "boom", stk := "trace" }
      (by decide) (by decide)).2.1,
   (c7_failure_detail emptyStore [] "1.2.3.4" 0
      { rating := 5, review := "Great service!" } 0 0 "oops" "other"
      (sampleAIJson none) { msg := "boom", stk := "trace" }
      (by decide) (by decide)).2.2.2.1⟩

/-- C7 counterexample: a thrown exception (for example a failing AI call or a
failing database push) is answered with a 500 whose `details` field carries the
exception's message and whose `stack` field carries the stack trace — not only a
generic error string. -/
theorem c7_counterexample :
    ((postSubmit emptyStore [] "1.2.3.4" 0 { rating := 5, review := "Great service!" }
        (.threw { msg := "connect ECONNREFUSED 10.0.0.5:443",
                  stk := "Error: connect ECONNREFUSED at TCPConnectWrap.afterConnect" })
        0 none 0).resp.details = some "connect ECONNREFUSED 10.0.0.5:443") ∧
    ((postSubmit emptyStore [] "1.2.3.4" 0 { rating := 5, review := "Great service!" }
        (.threw { msg := "connect ECONNREFUSED 10.0.0.5:443",
                  stk := "Error: connect ECONNREFUSED at TCPConnectWrap.afterConnect" })
        0 none 0).resp.stack =
      some "Error: connect ECONNREFUSED at TCPConnectWrap.afterConnect") := by
  exact ⟨by decide, by decide⟩

/-! ## The generate-report `POST` handler from route.ts -/

/-- Zero-pad a month or day number to two digits. -/
def pad2 (n : Int) : String := if n < 10 then "0" ++ toString n else toString n

/-- `new Date(ms).toISOString().split('T')[0]`: the UTC calendar date of an epoch
millisecond timestamp, via the standard days-to-civil-date algorithm. -/
def toISODateOnly (ms : Int) : String :=
  let days := ms / 86400000
  let z := days + 719468
  let era := z / 146097
  let doe := z - era * 146097
  let yoe := (doe - doe / 1460 + doe / 36524 - doe / 146096) / 365
  let y := yoe + era * 400
  let doy := doe - (365 * yoe + yoe / 4 - yoe / 100)
  let mp := (5 * doy + 2) / 153
  let d := doy - (153 * mp + 2) / 5 + 1
  let m := mp + (if mp < 10 then 3 else -9)
  let y2 := y + (if m ≤ 2 then 1 else 0)
  toString y2 ++ "-" ++ pad2 m ++ "-" ++ pad2 d

/-- One record as read back by the report route from `snapshot.val()`; optional
fields model properties that may be absent (legacy records use `review` and
`timestamp` instead of `reviewText` and `createdAt`). -/
structure RawStored where
  rating : ℚ
  reviewText : Option String := none
  review : Option String := none
  createdAt : Option Int := none
  timestamp : Option Int := none
  ai_sentiment : Option ℚ := none
  ai_tags : Option (List String) := none
deriving DecidableEq, Repr

/-- JavaScript truthiness of an optional string: `undefined` and `""` are falsy. -/
def strTruthy : Option String → Option String
  | some s => if s = "" then none else some s
  | none => none

/-- JavaScript `a || b` on optional strings: `b` is returned verbatim when `a`
is falsy. -/
def jsOrStr (a b : Option String) : Option String :=
  match strTruthy a with
  | some s => some s
  | none => b

/-- JavaScript truthiness of an optional number: `undefined` and `0` are falsy. -/
def numTruthy : Option Int → Option Int
  | some n => if n = 0 then none else some n
  | none => none

/-- JavaScript `a || b` on optional numbers: `b` is returned verbatim when `a`
is falsy. -/
def jsOrNum (a b : Option Int) : Option Int :=
  match numTruthy a with
  | some v => some v
  | none => b

/-- One element of the simplified `reviewsList` built by the report route. -/
structure ReportInput where
  rating : ℚ
  text : Option String
  date : String
  sentiment : Option ℚ
  tags : Option (List String)
deriving DecidableEq, Repr

/-- `{rating, text: r.reviewText || r.review, date: new Date(r.createdAt ||
r.timestamp).toISOString().split('T')[0], sentiment: r.ai_sentiment, tags:
r.ai_tags}`. The result is `none` when both timestamp fields are falsy, in which
case `new Date(undefined).toISOString()` throws `RangeError`. -/
def normalizeRecord (r : RawStored) : Option ReportInput :=
  match jsOrNum r.createdAt r.timestamp with
  | none => none
  | some ms =>
      some { rating := r.rating, text := jsOrStr r.reviewText r.review,
             date := toISODateOnly ms, sentiment := r.ai_sentiment,
             tags := r.ai_tags }

/-- `db.ref('reviews').limitToLast(n)`: the last `n` records in key order. -/
def takeLast {α : Type} (n : Nat) (l : List α) : List α := l.drop (l.length - n)

/-- `Object.values(reviewsData).map(...)`, where a throw inside the map aborts
the whole request (`none`). -/
def normalizeAll : List RawStored → Option (List ReportInput)
  | [] => some []
  | r :: rs =>
      match normalizeRecord r, normalizeAll rs with
      | some a, some l => some (a :: l)
      | _, _ => none

/-- The three observable outcomes of the generate-report route: `404` when no
records exist, `200 {report}` on success, `500` from the catch-all. -/
inductive ReportOutcome
  | noData
  | report (text : String)
  | serverError
deriving DecidableEq, Repr

/-- The generate-report `POST` handler. `db` is the stored record list in key
order; `aiText = none` models the AI call throwing, `aiText = some t` models a
returned response with `response.text = t` (where `t = none` or `t = some ""` is
falsy and replaced by the literal fallback string). -/
def generateReportRoute (db : List RawStored) (aiText : Option (Option String)) :
    ReportOutcome :=
  let fetched := takeLast 50 db
  if fetched.isEmpty then .noData
  else
    match normalizeAll fetched with
    | none => .serverError
    | some _ =>
        match aiText with
        | none => .serverError
        | some t => .report ((strTruthy t).getD "Failed to generate report.")

theorem takeLast_nil_iff {α : Type} (l : List α) : takeLast 50 l = [] ↔ l = [] := by
  unfold takeLast
  rw [List.drop_eq_nil_iff]
  constructor
  · intro h
    have hz : l.length = 0 := by omega
    exact List.length_eq_zero.mp hz
  · intro h
    subst h
    simp

theorem takeLast_len_le {α : Type} (l : List α) : (takeLast 50 l).length ≤ 50 := by
  unfold takeLast
  rw [List.length_drop]
  omega

theorem generateReport_noData_iff (db : List RawStored) (ai : Option (Option String)) :
    generateReportRoute db ai = .noData ↔ db = [] := by
  constructor
  · intro h
    by_contra hdb
    rcases hfe : takeLast 50 db with _ | ⟨x, xs⟩
    · exact hdb ((takeLast_nil_iff db).mp hfe)
    · unfold generateReportRoute at h
      rw [hfe] at h
      simp only [List.isEmpty_cons] at h
      rw [if_neg (by simp)] at h
      rcases hni : normalizeAll (x :: xs) with _ | l <;> rw [hni] at h
      · simp at h
      · rcases ai with _ | t <;> simp at h
  · intro h
    subst h
    rfl

/-- C8: the report job returns the NoData (404) outcome exactly when zero records
are stored; it fetches at most the 50 most recent records; against stored records
it answers with the literal fallback string — not an error — when the AI returns
no text or empty text; and normalization accepts the legacy field names `review`
(in place of `reviewText`) and `timestamp` (in place of `createdAt`). -/
theorem c8_report (db : List RawStored) (ai : Option (Option String)) (r : RawStored)
    (s : String) (ts : Int) :
    (generateReportRoute db ai = .noData ↔ db = []) ∧
    ((takeLast 50 db).length ≤ 50) ∧
    (db ≠ [] → (normalizeAll (takeLast 50 db)).isSome = true →
      generateReportRoute db (some none) = .report "Failed to generate report." ∧
      generateReportRoute db (some (some "")) = .report "Failed to generate report.") ∧
    (r.reviewText = none → r.createdAt = none → r.review = some s →
      r.timestamp = some ts →
      normalizeRecord r =
        some { rating := r.rating, text := some s, date := toISODateOnly ts,
               sentiment := r.ai_sentiment, tags := r.ai_tags }) := by
  refine ⟨generateReport_noData_iff db ai, takeLast_len_le db, ?_, ?_⟩
  · intro hdb hsome
    rcases hfe : takeLast 50 db with _ | ⟨x, xs⟩
    · exact absurd ((takeLast_nil_iff db).mp hfe) hdb
    · rcases hni : normalizeAll (x :: xs) with _ | l
      · rw [hfe, hni] at hsome
        simp at hsome
      · constructor <;>
          · unfold generateReportRoute
            rw [hfe]
            simp only [List.isEmpty_cons]
            rw [if_neg (by simp), hni]
            rfl
  · intro h1 h2 h3 h4
    unfold normalizeRecord
    rw [h1, h2, h3, h4]
    rfl

/-- A stored record carrying only the legacy field names. -/
def legacyRec : RawStored :=
  { rating := 4, review := some "Old but gold review",
    timestamp := some 1700000000000 }

theorem c8_report_witness :
    (generateReportRoute [legacyRec] (some none) =
      .report "Failed to generate report.") ∧
    (normalizeRecord legacyRec =
      some { rating := 4, text := some "Old but gold review",
             date := toISODateOnly 1700000000000, sentiment := none,
             tags := none }) ∧
    toISODateOnly 1700000000000 = "2023-11-14" :=
  ⟨((c8_report [legacyRec] (some none) legacyRec "Old but gold review"
      1700000000000).2.2.1 (by decide) (by decide)).1,
   (c8_report [legacyRec] (some none) legacyRec "Old but gold review"
      1700000000000).2.2.2 rfl rfl rfl rfl,
   by decide⟩

end Fynd
